import Mathlib

/-!
# Verification of the AGP-Campus-Virtual authentication module

Shallow embedding of `src/app/auth/views.py` (the auth flow handlers) and the
message catalog `Msg` of `src/app/__init__.py`, together with models of the
collaborators (`app/models.py`, `app/email.py`) that are referenced by the
handlers but whose source is not part of the reviewed slice; those models
follow the specification's contracts and are marked `Modelled from the spec:`.

Python attribute access on the `Msg` catalog classes is embedded as a lookup
returning `Option String`: a `none` result corresponds to Python raising
`AttributeError`, which the handler embeddings propagate as an error result.
-/

set_option autoImplicit false
set_option linter.unusedVariables false

deriving instance DecidableEq for Except

namespace App

/-- Python exceptions that can escape a handler in this embedding.
`attributeError name` models `AttributeError` raised when the attribute
`name` is looked up on a `Msg` catalog class and is not defined there. -/
inductive PyError where
  | attributeError (name : String)
  deriving DecidableEq, Repr

/-- A handler's HTTP-level answer: `redirect(location)` or
`render_template(template)` (template context is abstracted). -/
inductive Response where
  | redirect (location : String)
  | render (template : String)
  deriving DecidableEq, Repr

/-- `Msg.Flash` from `src/app/__init__.py` (lines 10-13), embedded as an
attribute-name lookup.  Exactly the three attributes defined in the source
resolve; every other name raises `AttributeError` in Python, i.e. `none`. -/
def MsgFlash : String → Option String
  | "LOGOUT_USER" => some "Ha cerrado sesión correctamente."
  | "NEW_USER" => some "Bienvenido \x7bfirst_name\x7d."
  | "INVALID_CREDENTIALS" => some "Correo o contraseña inválidos."
  | _ => none

/-- `Msg.UserRegistration` from `src/app/__init__.py` (lines 15-28). -/
def MsgUserRegistration : String → Option String
  | "ERROR_REQUIRED_FIELD" => some "Este campo es obligatorio."
  | "ERROR_PASSWORD_MATCH" => some "Las contraseñas deben coincidir."
  | "ERROR_EMAIL_IN_USE" => some "La dirección de correo ya ha sido registrada."
  | "ERROR_ACCEPT_TERMS" => some "Debe aceptar los términos y condiciones para continuar."
  | "ERROR_INVALID_EMAIL" => some "Por favor introduzca una dirección de correo válida."
  | "ERROR_PASSWORD_LENGTH" => some "La contraseña debe medir entre 8 y 64 caracteres."
  | "ERROR_PASSWORD_AT_LEAST_ONE_NUMBER" => some "La contraseña debe conenter al menos un número."
  | "ERROR_PASSWORD_AT_LEAST_ONE_UPPERCASE" => some "La contraseña debe conenter al menos una letra mayúscula."
  | "ERROR_PASSWORD_AT_LEAST_ONE_LOWERCASE" => some "La contraseña debe conenter al menos una letra minúscula."
  | "ERROR_PASSWORD_AT_LEAST_ONE_SPECIAL_CHARACTER" => some "La contraseña debe contener al menos un caracter especial: \x7b\x7d."
  | "ACCEPT_TERMS" => some "He leído y acepto los términos y condiciones."
  | _ => none

/-- `Msg.Mail`: the `Msg` class of `src/app/__init__.py` defines NO nested
class `Mail` at all, so in Python `Msg.Mail.RESET_PASSWORD_SUBJECT`
(referenced at `views.py` line 133) raises `AttributeError` already on the
`Mail` access.  Embedded as the everywhere-undefined lookup. -/
def MsgMail : String → Option String := fun _ => none

/-- A stored user record (spec section 3, Data Model).
`User` itself lives in `app/models.py`, outside the reviewed sources; the
fields are the ones the handlers in `views.py` read and write. -/
structure User where
  email : String
  firstName : String
  paternalLastName : String
  maternalLastName : String
  birthDate : String
  gender : String
  occupation : String
  passwordHash : String
  deriving DecidableEq, Repr

/-- The credential store plus reset-token material (spec sections 2 and 3).
`activeTokens` holds the issued, not-yet-consumed reset tokens as
(token value, bound email) pairs; `tokenCounter` makes generated token
values fresh. -/
structure AuthState where
  users : List User
  activeTokens : List (String × String)
  tokenCounter : Nat
  deriving DecidableEq, Repr

/-- A dispatched reset email: recipient, subject, template reference and the
token passed in the template context (`send_email` call, `views.py` 133-134). -/
structure Email where
  recipient : String
  subject : String
  template : String
  tokenArg : String
  deriving DecidableEq, Repr

/-- Everything observable about one handler invocation: flash messages
emitted, emails dispatched, the credential store after the call, the login
session after the call (the authenticated user's email, if any), and either
a response or a propagated Python exception. -/
structure Outcome where
  flashes : List String
  emails : List Email
  state : AuthState
  sessionAfter : Option String
  result : Except PyError Response
  deriving DecidableEq, Repr

/-- Modelled from the spec: `generate_password_hash` is imported from
`app/models.py`, which is not among the reviewed sources.  Spec section 4.1
gives the Password Hasher contract `hash(plaintext) -> digest` with
`verify(plaintext, digest)` succeeding exactly for the hashed plaintext;
salting and preimage resistance are abstracted, the model keeps the
verification contract. -/
def generate_password_hash (plaintext : String) : String :=
  "pbkdf2$" ++ plaintext

/-- Modelled from the spec: `User.check_password` (in `app/models.py`,
outside the reviewed sources) is the hasher's `verify(plaintext, digest)`
against the record's stored hash (spec section 4.1). -/
def User.check_password (u : User) (plaintext : String) : Bool :=
  u.passwordHash == generate_password_hash plaintext

/-- Modelled from the spec: `User.get_user` (in `app/models.py`, outside the
reviewed sources) is the store's `find_user_by_email(email) -> User?`
(spec section 6). -/
def get_user (st : AuthState) (email : String) : Option User :=
  st.users.find? (fun u => u.email == email)

/-- Modelled from the spec: the store's `save(user)` (spec section 6):
persist the record, replacing the record with the same email if one exists
and inserting it otherwise. -/
def save (st : AuthState) (u : User) : AuthState :=
  if st.users.any (fun v => v.email == u.email) then
    { st with users := st.users.map (fun v => if v.email == u.email then u else v) }
  else
    { st with users := st.users ++ [u] }

/-- `url_for` endpoint-to-path resolution for the endpoints `views.py`
uses; routing itself is the web framework's (an external collaborator), so
only the mapping of the endpoint names that appear in the source matters. -/
def url_for (endpoint : String) : String :=
  match endpoint with
  | "main.index" => "/"
  | "auth.login" => "/auth/login"
  | "auth.register" => "/auth/register"
  | "auth.change_password" => "/auth/change-password"
  | "error.not_found" => "/error/not-found"
  | _ => "/"

/-- `url_for` with a `next` query parameter, as in
`url_for("auth.login", next=next)` (`views.py` line 36); percent-encoding
of the query value is abstracted. -/
def url_for_next (endpoint nextVal : String) : String :=
  url_for endpoint ++ "?next=" ++ nextVal

/-- `next.startswith('/')` from `views.py` line 30.  For the
one-character prefix `'/'`, Python's `str.startswith` is exactly: the
string is nonempty and its first character is `'/'`.  (Embedded as the
explicit first-character test because it is extensionally the same
function on every string.) -/
def startswith_slash (s : String) : Bool :=
  match s.data with
  | [] => false
  | c :: _ => c == '/'

/-- The `next` normalisation of `views.py` lines 29-31: the requested
`next` query parameter is kept only when it is present and starts with
`'/'`; otherwise it falls back to `url_for("main.index")`. -/
def loginNext (nextParam : Option String) : String :=
  match nextParam with
  | none => url_for "main.index"
  | some n => if startswith_slash n then n else url_for "main.index"

/-- The `login` handler, `views.py` lines 10-44.
Inputs: the current session (`current_user.is_anonymous` is
`session.isNone`), the store, whether `form.validate_on_submit()` holds,
and the form fields `email`, `password`, `remember_me` plus the `next`
query parameter. -/
def login (session : Option String) (st : AuthState) (formValid : Bool)
    (email password : String) (rememberMe : Bool) (nextParam : Option String) :
    Outcome :=
  if session.isSome then
    -- lines 14-16: flash(Msg.Flash.ALREADY_LOGGED_IN); redirect(main.index)
    match MsgFlash "ALREADY_LOGGED_IN" with
    | none =>
      { flashes := [], emails := [], state := st, sessionAfter := session,
        result := .error (.attributeError "ALREADY_LOGGED_IN") }
    | some m =>
      { flashes := [m], emails := [], state := st, sessionAfter := session,
        result := .ok (.redirect (url_for "main.index")) }
  else if formValid then
    match get_user st email with
    | none =>
      -- lines 23-26
      match MsgFlash "INVALID_CREDENTIALS" with
      | none =>
        { flashes := [], emails := [], state := st, sessionAfter := session,
          result := .error (.attributeError "INVALID_CREDENTIALS") }
      | some m =>
        { flashes := [m], emails := [], state := st, sessionAfter := session,
          result := .ok (.redirect (url_for "auth.login")) }
    | some user =>
      -- lines 29-31: next normalisation
      let next := loginNext nextParam
      if ! user.check_password password then
        -- lines 33-36
        match MsgFlash "INVALID_CREDENTIALS" with
        | none =>
          { flashes := [], emails := [], state := st, sessionAfter := session,
            result := .error (.attributeError "INVALID_CREDENTIALS") }
        | some m =>
          { flashes := [m], emails := [], state := st, sessionAfter := session,
            result := .ok (.redirect (url_for_next "auth.login" next)) }
      else
        -- lines 38-42: login_user(user, remember=...); redirect(next)
        { flashes := [], emails := [], state := st, sessionAfter := some user.email,
          result := .ok (.redirect next) }
  else
    { flashes := [], emails := [], state := st, sessionAfter := session,
      result := .ok (.render "auth/login.html") }

/-- The fields of the registration form (`views.py` lines 55-62); the
confirmation/terms fields are consumed by the form collaborator and never
reach the handler. -/
structure RegisterFields where
  email : String
  firstName : String
  paternalLastName : String
  maternalLastName : String
  birthDate : String
  gender : String
  occupation : String
  password : String
  deriving DecidableEq, Repr

/-- Modelled from the spec: `User.create_new_user` (in `app/models.py`,
outside the reviewed sources) is the store's `create_user(fields) -> User`
(spec section 6): build the record with the hashed password (section 4.1,
no plaintext persisted). -/
def create_new_user (f : RegisterFields) : User :=
  { email := f.email, firstName := f.firstName,
    paternalLastName := f.paternalLastName,
    maternalLastName := f.maternalLastName, birthDate := f.birthDate,
    gender := f.gender, occupation := f.occupation,
    passwordHash := generate_password_hash f.password }

/-- `str.format(first_name=...)` applied to the `NEW_USER` template
(`views.py` line 70). -/
def format_first_name (template arg : String) : String :=
  template.replace "\x7bfirst_name\x7d" arg

/-- The `register` handler, `views.py` lines 46-73.  The handler never
inspects the current session; `session` is threaded through unchanged
except on the success path, where `login_user(new_user, remember=False)`
establishes a session for the new user. -/
def register (session : Option String) (st : AuthState) (formValid : Bool)
    (f : RegisterFields) : Outcome :=
  if formValid then
    if (get_user st f.email).isSome then
      -- lines 50-53
      match MsgUserRegistration "ERROR_EMAIL_IN_USE" with
      | none =>
        { flashes := [], emails := [], state := st, sessionAfter := session,
          result := .error (.attributeError "ERROR_EMAIL_IN_USE") }
      | some m =>
        { flashes := [m], emails := [], state := st, sessionAfter := session,
          result := .ok (.redirect (url_for "auth.register")) }
    else
      -- lines 55-71: create, save, login_user, flash NEW_USER, redirect home
      let newUser := create_new_user f
      let st2 := save st newUser
      match MsgFlash "NEW_USER" with
      | none =>
        { flashes := [], emails := [], state := st2,
          sessionAfter := some newUser.email,
          result := .error (.attributeError "NEW_USER") }
      | some m =>
        { flashes := [format_first_name m newUser.firstName], emails := [],
          state := st2, sessionAfter := some newUser.email,
          result := .ok (.redirect (url_for "main.index")) }
  else
    { flashes := [], emails := [], state := st, sessionAfter := session,
      result := .ok (.render "auth/register.html") }

/-- The `logout` handler, `views.py` lines 75-80: if a session exists,
`logout_user()` destroys it and a confirmation is flashed; in every case the
handler redirects home. -/
def logout (session : Option String) (st : AuthState) : Outcome :=
  if session.isSome then
    match MsgFlash "LOGOUT_USER" with
    | none =>
      { flashes := [], emails := [], state := st, sessionAfter := session,
        result := .error (.attributeError "LOGOUT_USER") }
    | some m =>
      { flashes := [m], emails := [], state := st, sessionAfter := none,
        result := .ok (.redirect (url_for "main.index")) }
  else
    { flashes := [], emails := [], state := st, sessionAfter := none,
      result := .ok (.redirect (url_for "main.index")) }

/-- The `change_password` handler, `views.py` lines 83-116.
`@fresh_login_required` guarantees an authenticated, fresh session, so the
handler receives the session's `current_user` record directly.  The Python
control flow falls through to the re-fetch exactly when the old password
verifies and differs from the new one, which is the `else` of the inner
branch here. -/
def change_password (currentUser : User) (st : AuthState) (formValid : Bool)
    (oldPassword newPassword : String) : Outcome :=
  if formValid then
    if currentUser.check_password oldPassword then
      if oldPassword == newPassword then
        -- lines 93-96
        match MsgFlash "SAME_AS_OLD_PASSWORD" with
        | none =>
          { flashes := [], emails := [], state := st,
            sessionAfter := some currentUser.email,
            result := .error (.attributeError "SAME_AS_OLD_PASSWORD") }
        | some m =>
          { flashes := [m], emails := [], state := st,
            sessionAfter := some currentUser.email,
            result := .ok (.redirect (url_for "auth.change_password")) }
      else
        -- lines 104-115: re-fetch, overwrite hash, save, flash success
        match get_user st currentUser.email with
        | none =>
          { flashes := [], emails := [], state := st,
            sessionAfter := some currentUser.email,
            result := .ok (.redirect (url_for "error.not_found")) }
        | some user =>
          let user2 := { user with passwordHash := generate_password_hash newPassword }
          let st2 := save st user2
          match MsgFlash "PASSWORD_CHANGE_SUCCESFUL" with
          | none =>
            { flashes := [], emails := [], state := st2,
              sessionAfter := some currentUser.email,
              result := .error (.attributeError "PASSWORD_CHANGE_SUCCESFUL") }
          | some m =>
            { flashes := [m], emails := [], state := st2,
              sessionAfter := some currentUser.email,
              result := .ok (.redirect (url_for "main.index")) }
    else
      -- lines 98-101
      match MsgFlash "INVALID_OLD_PASSWORD" with
      | none =>
        { flashes := [], emails := [], state := st,
          sessionAfter := some currentUser.email,
          result := .error (.attributeError "INVALID_OLD_PASSWORD") }
      | some m =>
        { flashes := [m], emails := [], state := st,
          sessionAfter := some currentUser.email,
          result := .ok (.redirect (url_for "auth.change_password")) }
  else
    { flashes := [], emails := [], state := st,
      sessionAfter := some currentUser.email,
      result := .ok (.render "auth/change_password.html") }

/-- Modelled from the spec: `User.generate_reset_token` (in
`app/models.py`, outside the reviewed sources) is the Token Generator's
`generate(user) -> token` (spec section 4.2): issue a fresh token bound to
the user's identity; it stays valid until consumed (expiry is a wall-clock
property outside this embedding). -/
def generate_reset_token (st : AuthState) (u : User) : String × AuthState :=
  let tok := "reset-token-" ++ toString st.tokenCounter
  (tok, { st with activeTokens := (tok, u.email) :: st.activeTokens,
                  tokenCounter := st.tokenCounter + 1 })

/-- Modelled from the spec: `User.reset_password(token, new_password)` (in
`app/models.py`, outside the reviewed sources) per spec sections 4.2 and 3:
validate the token (well-formed, unconsumed; malformed/expired/consumed all
resolve to invalid); on success set the bound user's password hash, persist,
and consume the token (single-use invariant); returns whether it succeeded,
with the updated store. -/
def User.reset_password (st : AuthState) (token newPassword : String) :
    Bool × AuthState :=
  match st.activeTokens.find? (fun p => p.1 == token) with
  | none => (false, st)
  | some bound =>
    match get_user st bound.2 with
    | none => (false, st)
    | some user =>
      let user2 := { user with passwordHash := generate_password_hash newPassword }
      let st2 := save { st with
        activeTokens := st.activeTokens.filter (fun p => p.1 != token) } user2
      (true, st2)

/-- The `password_reset_request` handler, `views.py` lines 122-137.
For a found user the Python call
`send_email(user.email, Msg.Mail.RESET_PASSWORD_SUBJECT, ...)` evaluates
its arguments left to right, so the token is generated first and the
missing `Msg.Mail` class is looked up before any email is dispatched. -/
def password_reset_request (session : Option String) (st : AuthState)
    (formValid : Bool) (email : String) : Outcome :=
  if session.isSome then
    -- lines 124-125
    { flashes := [], emails := [], state := st, sessionAfter := session,
      result := .ok (.redirect (url_for "main.index")) }
  else if formValid then
    match get_user st email with
    | some user =>
      -- lines 131-134: token generated, then Msg.Mail access, then send_email
      let gen := generate_reset_token st user
      match MsgMail "RESET_PASSWORD_SUBJECT" with
      | none =>
        -- `Msg` has no `Mail` class: AttributeError on the class access
        { flashes := [], emails := [], state := gen.2, sessionAfter := session,
          result := .error (.attributeError "Mail") }
      | some subj =>
        let sent : Email :=
          { recipient := user.email, subject := subj,
            template := "auth/email/reset_password", tokenArg := gen.1 }
        -- lines 135-136, shared with the not-found branch
        match MsgFlash "PASSWORD_RESET_EMAIL_SENT" with
        | none =>
          { flashes := [], emails := [sent], state := gen.2,
            sessionAfter := session,
            result := .error (.attributeError "PASSWORD_RESET_EMAIL_SENT") }
        | some m =>
          { flashes := [m], emails := [sent], state := gen.2,
            sessionAfter := session,
            result := .ok (.redirect (url_for "auth.login")) }
    | none =>
      -- lines 135-136
      match MsgFlash "PASSWORD_RESET_EMAIL_SENT" with
      | none =>
        { flashes := [], emails := [], state := st, sessionAfter := session,
          result := .error (.attributeError "PASSWORD_RESET_EMAIL_SENT") }
      | some m =>
        { flashes := [m], emails := [], state := st, sessionAfter := session,
          result := .ok (.redirect (url_for "auth.login")) }
  else
    { flashes := [], emails := [], state := st, sessionAfter := session,
      result := .ok (.render "auth/reset_password.html") }

/-- The `password_reset` (token) handler, `views.py` lines 142-154. -/
def password_reset (session : Option String) (st : AuthState) (token : String)
    (formValid : Bool) (newPassword : String) : Outcome :=
  if session.isSome then
    -- lines 144-145
    { flashes := [], emails := [], state := st, sessionAfter := session,
      result := .ok (.redirect (url_for "main.index")) }
  else if formValid then
    match User.reset_password st token newPassword with
    | (true, st2) =>
      -- lines 149-151
      match MsgFlash "PASSWORD_CHANGE_SUCCESFUL" with
      | none =>
        { flashes := [], emails := [], state := st2, sessionAfter := session,
          result := .error (.attributeError "PASSWORD_CHANGE_SUCCESFUL") }
      | some m =>
        { flashes := [m], emails := [], state := st2, sessionAfter := session,
          result := .ok (.redirect (url_for "auth.login")) }
    | (false, st2) =>
      -- lines 152-153
      { flashes := [], emails := [], state := st2, sessionAfter := session,
        result := .ok (.redirect (url_for "main.index")) }
  else
    { flashes := [], emails := [], state := st, sessionAfter := session,
      result := .ok (.render "auth/reset_password.html") }

/-! ## Concrete fixtures used by the witness theorems -/

/-- A concrete stored user whose password is `OldPw1!`. -/
def u0 : User :=
  { email := "a@example.com", firstName := "Ana", paternalLastName := "Perez",
    maternalLastName := "Luna", birthDate := "1990-01-01", gender := "F",
    occupation := "student", passwordHash := generate_password_hash "OldPw1!" }

/-- A concrete store holding exactly `u0` and no outstanding reset tokens. -/
def st0 : AuthState := { users := [u0], activeTokens := [], tokenCounter := 0 }

/-- A concrete registration submission re-using `u0`'s email address. -/
def f0 : RegisterFields :=
  { email := "a@example.com", firstName := "Beto", paternalLastName := "Rios",
    maternalLastName := "Sol", birthDate := "1992-02-02", gender := "M",
    occupation := "teacher", password := "NewPw2!" }

/-- A concrete store in which the reset token `reset-token-0` has been
issued for `u0` and not yet consumed. -/
def stT : AuthState :=
  { users := [u0], activeTokens := [("reset-token-0", "a@example.com")],
    tokenCounter := 1 }

/-! ## Claims -/

/-- C1: the claim says every auth handler resolves its flash/mail message
keys in the central `Msg` catalog and completes with redirect + flash.  In
the code, the keys `ALREADY_LOGGED_IN`, `SAME_AS_OLD_PASSWORD`,
`INVALID_OLD_PASSWORD`, `PASSWORD_CHANGE_SUCCESFUL`,
`PASSWORD_RESET_EMAIL_SENT` and the whole `Msg.Mail` class are absent from
`src/app/__init__.py`, so the flows that reach them raise `AttributeError`
instead of completing with a redirect: this theorem exhibits the missing
keys and three handler invocations whose result is a propagated error. -/
theorem msg_catalog_missing_keys :
    MsgFlash "ALREADY_LOGGED_IN" = none ∧
    MsgFlash "SAME_AS_OLD_PASSWORD" = none ∧
    MsgFlash "INVALID_OLD_PASSWORD" = none ∧
    MsgFlash "PASSWORD_CHANGE_SUCCESFUL" = none ∧
    MsgFlash "PASSWORD_RESET_EMAIL_SENT" = none ∧
    MsgMail "RESET_PASSWORD_SUBJECT" = none ∧
    (login (some "a@example.com") st0 false "" "" false none).result
      = .error (.attributeError "ALREADY_LOGGED_IN") ∧
    (change_password u0 st0 true "OldPw1!" "OldPw1!").result
      = .error (.attributeError "SAME_AS_OLD_PASSWORD") ∧
    (password_reset_request none st0 true "b@example.com").result
      = .error (.attributeError "PASSWORD_RESET_EMAIL_SENT") :=
  ⟨rfl, rfl, rfl, rfl, rfl, rfl, rfl, rfl, rfl⟩

/-- C4: the claim says every valid anonymous reset-request flashes the
reset-email-sent confirmation and redirects to login, dispatching an email
exactly when the user exists.  In the code both branches raise
`AttributeError` before any flash (`Msg.Mail` is missing in the known-email
branch, `Msg.Flash.PASSWORD_RESET_EMAIL_SENT` in the unknown-email branch),
and no email is ever dispatched — in the known case the reset token is
generated and then the crash happens while evaluating the `send_email`
arguments. -/
theorem password_reset_request_raises_attribute_error :
    password_reset_request none st0 true "a@example.com"
      = { flashes := [], emails := [],
          state := { users := [u0],
                     activeTokens := [("reset-token-0", "a@example.com")],
                     tokenCounter := 1 },
          sessionAfter := none,
          result := .error (.attributeError "Mail") } ∧
    password_reset_request none st0 true "b@example.com"
      = { flashes := [], emails := [], state := st0, sessionAfter := none,
          result := .error (.attributeError "PASSWORD_RESET_EMAIL_SENT") } :=
  ⟨rfl, rfl⟩

/-- C5: the claim says same-as-old and wrong-old-password submissions are
rejected with their respective flash messages and a matching, distinct new
password is persisted with a success flash.  In the code all three of those
paths raise `AttributeError` (the flash keys are absent from the catalog):
the two rejection paths leave the store unchanged but crash instead of
flashing, and the success path persists the new hash and then crashes while
flashing, so no invocation completes as the claim describes. -/
theorem change_password_raises_attribute_error :
    change_password u0 st0 true "OldPw1!" "OldPw1!"
      = { flashes := [], emails := [], state := st0,
          sessionAfter := some "a@example.com",
          result := .error (.attributeError "SAME_AS_OLD_PASSWORD") } ∧
    change_password u0 st0 true "WrongPw9!" "NewPw2!"
      = { flashes := [], emails := [], state := st0,
          sessionAfter := some "a@example.com",
          result := .error (.attributeError "INVALID_OLD_PASSWORD") } ∧
    change_password u0 st0 true "OldPw1!" "NewPw2!"
      = { flashes := [], emails := [],
          state := { users := [{ u0 with
                       passwordHash := generate_password_hash "NewPw2!" }],
                     activeTokens := [], tokenCounter := 0 },
          sessionAfter := some "a@example.com",
          result := .error (.attributeError "PASSWORD_CHANGE_SUCCESFUL") } :=
  ⟨rfl, rfl, rfl⟩

/-- C2: for every successful login (anonymous caller, valid form, matching
user and password), a missing `next` parameter or one that does not start
with `'/'` redirects to home, and a `next` that starts with `'/'` redirects
to `next` itself. -/
theorem login_next_guard (st : AuthState) (email password : String)
    (rememberMe : Bool) (u : User)
    (hu : get_user st email = some u)
    (hp : u.check_password password = true) :
    (login none st true email password rememberMe none).result
      = .ok (.redirect (url_for "main.index")) ∧
    (∀ n : String, startswith_slash n = false →
      (login none st true email password rememberMe (some n)).result
        = .ok (.redirect (url_for "main.index"))) ∧
    (∀ n : String, startswith_slash n = true →
      (login none st true email password rememberMe (some n)).result
        = .ok (.redirect n)) := by
  refine ⟨by simp [login, hu, hp, loginNext], fun n hn => ?_, fun n hn => ?_⟩ <;>
    simp [login, hu, hp, loginNext, hn]

/-- C2 witness: in the concrete store `st0`, logging in as `u0` with
`next=/dashboard` redirects to `/dashboard`, and with
`next=http://evil.example.com` falls back to home. -/
theorem login_next_guard_witness :
    (login none st0 true "a@example.com" "OldPw1!" false
        (some "/dashboard")).result = .ok (.redirect "/dashboard") ∧
    (login none st0 true "a@example.com" "OldPw1!" false
        (some "http://evil.example.com")).result
      = .ok (.redirect (url_for "main.index")) :=
  ⟨(login_next_guard st0 "a@example.com" "OldPw1!" false u0 rfl rfl).2.2
      "/dashboard" (by decide),
   (login_next_guard st0 "a@example.com" "OldPw1!" false u0 rfl rfl).2.1
      "http://evil.example.com" (by decide)⟩

/-- C3: a login submission whose email matches no stored user and one with
an existing user's email but a wrong password flash the byte-identical
single generic invalid-credentials message. -/
theorem login_failure_flash_identical (st : AuthState)
    (e1 p1 e2 p2 : String) (rm1 rm2 : Bool) (n1 n2 : Option String) (u : User)
    (h1 : get_user st e1 = none) (h2 : get_user st e2 = some u)
    (hp : u.check_password p2 = false) :
    (login none st true e1 p1 rm1 n1).flashes
      = (login none st true e2 p2 rm2 n2).flashes ∧
    (login none st true e1 p1 rm1 n1).flashes
      = ["Correo o contraseña inválidos."] := by
  have hmsg : MsgFlash "INVALID_CREDENTIALS"
      = some "Correo o contraseña inválidos." := rfl
  constructor <;> simp [login, h1, h2, hp, hmsg]

/-- C3 witness: in the concrete store `st0`, a login for the unknown email
`b@example.com` and a login for `u0`'s email with a wrong password produce
the same flash list. -/
theorem login_failure_flash_identical_witness :
    (login none st0 true "b@example.com" "x" false none).flashes
      = (login none st0 true "a@example.com" "WrongPw9!" true
          (some "/dash")).flashes :=
  (login_failure_flash_identical st0 "b@example.com" "x" "a@example.com"
    "WrongPw9!" false true none (some "/dash") u0 rfl rfl rfl).1

/-- C9: the open-redirect guard of `login` only checks the first character,
so a successful login with the protocol-relative external URL
`next=//evil.example.com` redirects to that value unchanged. -/
theorem login_accepts_protocol_relative_next (st : AuthState)
    (email password : String) (rememberMe : Bool) (u : User)
    (hu : get_user st email = some u)
    (hp : u.check_password password = true) :
    (login none st true email password rememberMe
        (some "//evil.example.com")).result
      = .ok (.redirect "//evil.example.com") := by
  have hsw : startswith_slash "//evil.example.com" = true := rfl
  simp [login, hu, hp, loginNext, hsw]

/-- C9 witness: the concrete login of `u0` with
`next=//evil.example.com` redirects to `//evil.example.com`. -/
theorem login_accepts_protocol_relative_next_witness :
    (login none st0 true "a@example.com" "OldPw1!" false
        (some "//evil.example.com")).result
      = .ok (.redirect "//evil.example.com") :=
  login_accepts_protocol_relative_next st0 "a@example.com" "OldPw1!" false
    u0 rfl rfl

/-- C10: the two login-failure branches are distinguishable beyond the
identical flash: an unknown email redirects to the bare login URL, while a
known email with a wrong password redirects to the login URL carrying the
(normalised) `next` query parameter, and those two redirect targets are
never equal. -/
theorem login_failure_redirects_distinguishable (st : AuthState)
    (e1 p1 e2 p2 : String) (rm1 rm2 : Bool) (nextParam : Option String)
    (u : User)
    (h1 : get_user st e1 = none) (h2 : get_user st e2 = some u)
    (hp : u.check_password p2 = false) :
    (login none st true e1 p1 rm1 nextParam).result
      = .ok (.redirect (url_for "auth.login")) ∧
    (login none st true e2 p2 rm2 nextParam).result
      = .ok (.redirect (url_for_next "auth.login" (loginNext nextParam))) ∧
    url_for "auth.login" ≠ url_for_next "auth.login" (loginNext nextParam) := by
  have hmsg : MsgFlash "INVALID_CREDENTIALS"
      = some "Correo o contraseña inválidos." := rfl
  refine ⟨by simp [login, h1, hmsg], by simp [login, h2, hp, hmsg], fun heq => ?_⟩
  have hform : url_for_next "auth.login" (loginNext nextParam)
      = "/auth/login?next=" ++ loginNext nextParam := by
    simp [url_for_next, url_for]
  have hlen := congrArg String.length heq
  rw [hform, String.length_append] at hlen
  rw [show (url_for "auth.login").length = 11 from rfl] at hlen
  rw [show ("/auth/login?next=" : String).length = 17 from rfl] at hlen
  omega

/-- C10 witness: in the concrete store `st0` with `next=/dash`, the
unknown-email failure redirects to `/auth/login` while the wrong-password
failure for `u0` redirects to `/auth/login?next=/dash`, two different
targets. -/
theorem login_failure_redirects_distinguishable_witness :
    (login none st0 true "b@example.com" "x" false (some "/dash")).result
      = .ok (.redirect (url_for "auth.login")) ∧
    (login none st0 true "a@example.com" "WrongPw9!" false
        (some "/dash")).result
      = .ok (.redirect (url_for_next "auth.login" (loginNext (some "/dash")))) ∧
    url_for "auth.login" ≠ url_for_next "auth.login" (loginNext (some "/dash")) :=
  login_failure_redirects_distinguishable st0 "b@example.com" "x"
    "a@example.com" "WrongPw9!" false false (some "/dash") u0 rfl rfl rfl

/-- `save` never touches the reset-token material. -/
theorem save_activeTokens (st : AuthState) (u : User) :
    (save st u).activeTokens = st.activeTokens := by
  unfold save
  split <;> rfl

/-- Helper for single-use tokens: after removing every pair whose key is
`t`, a lookup for key `t` finds nothing. -/
theorem find?_filter_eq_none (l : List (String × String)) (t : String) :
    (l.filter (fun p => p.1 != t)).find? (fun p => p.1 == t) = none := by
  rw [List.find?_eq_none]
  intro x hx
  have hpx := (List.mem_filter.mp hx).2
  simp only [bne_iff_ne, ne_eq] at hpx
  simp [hpx]

/-- C6: a valid registration whose email already belongs to a stored user
is rejected with the email-in-use message, no record is created and the
store is left exactly as it was; moreover registration always preserves
the email-uniqueness invariant of the store. -/
theorem register_duplicate_email_rejected (session : Option String)
    (st : AuthState) (f : RegisterFields) (u : User)
    (hu : get_user st f.email = some u) :
    register session st true f
      = { flashes := ["La dirección de correo ya ha sido registrada."],
          emails := [], state := st, sessionAfter := session,
          result := .ok (.redirect (url_for "auth.register")) } ∧
    ∀ (s2 : Option String) (st2 : AuthState) (v : Bool) (f2 : RegisterFields),
      (st2.users.map User.email).Nodup →
      ((register s2 st2 v f2).state.users.map User.email).Nodup := by
  have hmsg : MsgUserRegistration "ERROR_EMAIL_IN_USE"
      = some "La dirección de correo ya ha sido registrada." := rfl
  have hnew : MsgFlash "NEW_USER" = some "Bienvenido \x7bfirst_name\x7d." := rfl
  refine ⟨by simp [register, hu, hmsg], ?_⟩
  intro s2 st2 v f2 hnd
  cases v with
  | false => simpa [register] using hnd
  | true =>
    cases hu2 : get_user st2 f2.email with
    | some u2 => simpa [register, hu2, hmsg] using hnd
    | none =>
      have hall : ∀ x ∈ st2.users, x.email ≠ f2.email := by
        intro x hx
        have := List.find?_eq_none.mp hu2 x hx
        simpa using this
      have hemail : (create_new_user f2).email = f2.email := rfl
      have hany : (st2.users.any fun v => v.email == (create_new_user f2).email)
          = false := by
        rw [hemail, List.any_eq_false]
        intro x hx
        simp [hall x hx]
      have hstate : (register s2 st2 true f2).state
          = { st2 with users := st2.users ++ [create_new_user f2] } := by
        simp [register, hu2, hnew, save, hany]
      rw [hstate]
      simp only [List.map_append, List.map_cons, List.map_nil]
      rw [List.nodup_append]
      refine ⟨hnd, List.nodup_singleton _, ?_⟩
      intro a ha hb
      obtain ⟨x, hx, hxe⟩ := List.mem_map.mp ha
      have hb' : a = (create_new_user f2).email := by simpa using hb
      exact hall x hx (hxe.trans (hb'.trans hemail))

/-- C6 witness: registering `f0`, which re-uses `u0`'s email, in the
concrete store `st0` leaves the store unchanged and flashes the
email-in-use message. -/
theorem register_duplicate_email_rejected_witness :
    get_user st0 f0.email = some u0 ∧
    register none st0 true f0
      = { flashes := ["La dirección de correo ya ha sido registrada."],
          emails := [], state := st0, sessionAfter := none,
          result := .ok (.redirect (url_for "auth.register")) } :=
  ⟨rfl, (register_duplicate_email_rejected none st0 f0 u0 rfl).1⟩

/-- C7: once a reset token has been successfully used to change a password
(the validation-and-update step of the token-reset flow succeeded, leaving
the store it produced), presenting the same token again fails validation —
`User.reset_password` returns `false` — and the handler redirects home
leaving the store untouched; the first handler invocation indeed leaves
exactly the store the successful `User.reset_password` produced. -/
theorem reset_token_single_use (st : AuthState) (tok p p2 : String)
    (h : (User.reset_password st tok p).1 = true) :
    (password_reset none st tok true p).state
      = (User.reset_password st tok p).2 ∧
    (User.reset_password (User.reset_password st tok p).2 tok p2).1 = false ∧
    password_reset none (User.reset_password st tok p).2 tok true p2
      = { flashes := [], emails := [],
          state := (User.reset_password st tok p).2, sessionAfter := none,
          result := .ok (.redirect (url_for "main.index")) } := by
  cases hfind : st.activeTokens.find? (fun q => q.1 == tok) with
  | none =>
    rw [User.reset_password] at h
    simp [hfind] at h
  | some bound =>
    cases huser : get_user st bound.2 with
    | none =>
      rw [User.reset_password] at h
      simp [hfind, huser] at h
    | some user =>
      have hst2 : User.reset_password st tok p
          = (true, save { st with
              activeTokens := st.activeTokens.filter (fun q => q.1 != tok) }
              { user with passwordHash := generate_password_hash p }) := by
        rw [User.reset_password]
        simp [hfind, huser]
      have hat : (User.reset_password st tok p).2.activeTokens
          = st.activeTokens.filter (fun q => q.1 != tok) := by
        rw [hst2, save_activeTokens]
      have hfind2 : (User.reset_password st tok p).2.activeTokens.find?
          (fun q => q.1 == tok) = none := by
        rw [hat]
        exact find?_filter_eq_none _ _
      have hrp2 : User.reset_password (User.reset_password st tok p).2 tok p2
          = (false, (User.reset_password st tok p).2) := by
        rw [User.reset_password]
        simp [hfind2]
      have hpc : MsgFlash "PASSWORD_CHANGE_SUCCESFUL" = none := rfl
      refine ⟨?_, by rw [hrp2], ?_⟩
      · rw [password_reset]
        simp [hst2, hpc]
      · rw [password_reset]
        simp [hrp2]

/-- C7 witness: in the concrete store `stT`, the outstanding token
`reset-token-0` successfully changes `u0`'s password once, and the same
token then fails validation on the second submission. -/
theorem reset_token_single_use_witness :
    (User.reset_password stT "reset-token-0" "NewPw2!").1 = true ∧
    (User.reset_password (User.reset_password stT "reset-token-0" "NewPw2!").2
        "reset-token-0" "Other3!").1 = false :=
  ⟨rfl, (reset_token_single_use stT "reset-token-0" "NewPw2!" "Other3!"
      rfl).2.1⟩

/-- C8: `logout` always redirects home; with a live session it destroys the
session and flashes the confirmation, while an already-anonymous call
changes no session and flashes nothing; and a second call right after a
first one flashes nothing and leaves the store, session, and response of
the first call unchanged — logout twice equals logout once. -/
theorem logout_idempotent (session : Option String) (st : AuthState)
    (u : String) :
    logout (some u) st
      = { flashes := ["Ha cerrado sesión correctamente."], emails := [],
          state := st, sessionAfter := none,
          result := .ok (.redirect (url_for "main.index")) } ∧
    logout none st
      = { flashes := [], emails := [], state := st, sessionAfter := none,
          result := .ok (.redirect (url_for "main.index")) } ∧
    logout (logout session st).sessionAfter (logout session st).state
      = { flashes := [], emails := [], state := (logout session st).state,
          sessionAfter := (logout session st).sessionAfter,
          result := (logout session st).result } := by
  have hmsg : MsgFlash "LOGOUT_USER" = some "Ha cerrado sesión correctamente." :=
    rfl
  refine ⟨by simp [logout, hmsg], by simp [logout], ?_⟩
  cases session <;> simp [logout, hmsg]

end App
